import Mathlib

/-!
Verification development for the urbanfixbackend complaint-tracking service.

The repository contains three near-duplicate Express server revisions:
`index.js` (revision V1), `unnamed/part_000` (revision V0, the oldest), and
`unnamed/part_001` (revision V2, the one with the image pipeline and the
`authMiddleware.js` admin gate).  Where two revisions implement the same
route differently, both are embedded, suffixed `V0`/`V1`/`V2`.

JWT tokens are embedded symbolically: a well-formed signed token records its
payload, its issue time and the secret it was signed with; `jwt.verify`
succeeds exactly when the signing secret matches the server secret and the
token is not expired (`expiresIn` of 1h, i.e. 3600 seconds).  A header value
of the form `Bearer <tok>` is itself never a well-formed JWT string, so
verifying it directly fails; that is the `HeaderVal.bearer` constructor.
-/

/-- JWT payload as produced by the issuance sites: `{ email, id }` plus an
`isAdmin` field that some issuance sites omit (`none` models an absent
field, mirroring JavaScript `undefined`). -/
structure Payload where
  id : String
  email : String
  isAdmin : Option Bool
deriving DecidableEq, Repr

/-- An authenticated principal as held by the external identity store;
`isAdmin` models the truthiness of the user metadata admin field. -/
structure Identity where
  id : String
  email : String
  isAdmin : Bool
deriving DecidableEq, Repr

/-- A token string: either a well-formed JWT signed with some secret at some
issue time, or a string that is not a well-formed JWT at all. -/
inductive Token where
  | signed (p : Payload) (iat : Nat) (secret : String)
  | malformed (s : String)
deriving DecidableEq, Repr

/-- `jwt.verify(token, serverSecret)` at time `now` (seconds): succeeds with
the payload iff the token was signed with the server secret and less than
3600 seconds (`expiresIn` of 1h) have elapsed since issuance. -/
def verifyToken (t : Token) (serverSecret : String) (now : Nat) : Option Payload :=
  match t with
  | .signed p iat sec => if sec = serverSecret ∧ now < iat + 3600 then some p else none
  | .malformed _ => none

/-- `generateToken` of `index.js` line 26 and `part_000` line 29: signs
`{ email: user.email, id: user.id }` — no `isAdmin` field — with 1h expiry. -/
def generateToken (user : Identity) (secret : String) (now : Nat) : Token :=
  .signed { id := user.id, email := user.email, isAdmin := none } now secret

/-- `generateToken` of `part_001` line 44: signs
`the payload email, id, and isAdmin set to the user metadata admin flag (false when absent)` with 1h expiry. -/
def generateTokenV2 (user : Identity) (secret : String) (now : Nat) : Token :=
  .signed { id := user.id, email := user.email, isAdmin := some user.isAdmin } now secret

/-- The raw `authorization` header value: either a bare token string, or a
token string preceded by the literal `Bearer ` marker. -/
inductive HeaderVal where
  | tok (t : Token)
  | bearer (t : Token)
deriving DecidableEq, Repr

/-- Verifying the raw header value as a JWT string.  A `Bearer `-marked
string is never itself a well-formed JWT (its first dot-separated segment is
not valid base64url JSON), so direct verification fails on it. -/
def verifyHeader (h : HeaderVal) (serverSecret : String) (now : Nat) : Option Payload :=
  match h with
  | .tok t => verifyToken t serverSecret now
  | .bearer _ => none

/-- `authMiddleware.js` line 8: take the part after `Bearer ` when the header
starts with that marker, else the whole header — recover the bare token. -/
def stripBearer (h : HeaderVal) : Token :=
  match h with
  | .tok t => t
  | .bearer t => t

/-- Outcome of an authorization gate: an early JSON rejection with an HTTP
status, or proceeding into the handler with `req.user` set. -/
inductive GateResult where
  | reject (status : Nat)
  | proceed (user : Payload)
deriving DecidableEq, Repr

/-- `authenticateToken` (`index.js` line 31, `part_000` line 34, `part_001`
line 52): 401 when no header, 403 when the header value fails verification,
else proceed with the decoded payload.  No `Bearer ` stripping. -/
def authenticateToken (h : Option HeaderVal) (serverSecret : String) (now : Nat) : GateResult :=
  match h with
  | none => .reject 401
  | some hv =>
    match verifyHeader hv serverSecret now with
    | none => .reject 403
    | some p => .proceed p

/-- `authenticateAdmin` (`index.js` line 44, `part_000` line 47, `part_001`
line 81): as `authenticateToken`, plus 403 when the payload
field `isAdmin` is absent or not `true`.  No `Bearer ` stripping. -/
def authenticateAdmin (h : Option HeaderVal) (serverSecret : String) (now : Nat) : GateResult :=
  match h with
  | none => .reject 401
  | some hv =>
    match verifyHeader hv serverSecret now with
    | none => .reject 403
    | some p => if p.isAdmin = some true then .proceed p else .reject 403

/-- `isAdmin` of `authMiddleware.js`: strips an optional `Bearer ` marker
from the header value before verifying, then 403 unless the payload carries
`isAdmin: true`. -/
def isAdminMw (h : Option HeaderVal) (serverSecret : String) (now : Nat) : GateResult :=
  match h with
  | none => .reject 401
  | some hv =>
    match verifyToken (stripBearer hv) serverSecret now with
    | none => .reject 403
    | some p => if p.isAdmin = some true then .proceed p else .reject 403

/-- The fixed tag vocabulary, `VALID_TAGS` in every revision. -/
def VALID_TAGS : List String := ["electricity", "canteen", "furniture", "campus"]

/-- A row of the external `complaints` table, as shaped by the insert sites
(`user_id` from the token, `status` initialised to `pending`, database
defaults `upvotes = 0` and a creation timestamp). -/
structure Complaint where
  id : String
  user_id : String
  title : String
  description : String
  status : String
  tags : List String
  image_url : Option String
  upvotes : Nat
  created_at : Nat
deriving DecidableEq, Repr

/-- `.select(...).eq(id, cid).single()` against the store: the first (and,
ids being unique, only) row with the given id. -/
def findComplaint (store : List Complaint) (cid : String) : Option Complaint :=
  store.find? (fun c => c.id = cid)

/-- A handler outcome: the HTTP status sent and the complaints table after
the request.  Branches where an external store call itself fails return 500
without mutating; those dependency-failure branches are not modelled, since
every claim here concerns the logic of the service itself. -/
structure HandlerResult where
  status : Nat
  store : List Complaint
deriving DecidableEq, Repr

/-- `POST /complaints/:id/upvote` (`index.js` line 136, `part_001` line 285;
gated by `authenticateToken`): fetch the `upvotes` field of the row, 404 when the fetch
fails, else write back `(upvotes or 0) + 1`.  The handler body never reads
`req.user` beyond the gate, so the requester payload is unused. -/
def upvoteHandler (requester : Payload) (store : List Complaint) (cid : String) : HandlerResult :=
  match findComplaint store cid with
  | none => ⟨404, store⟩
  | some c =>
    let newUpvotes := c.upvotes + 1
    ⟨200, store.map (fun x => if x.id = cid then { x with upvotes := newUpvotes } else x)⟩

/-- Body of `DELETE /complaints/:id` (`part_001` line 422), parametrised by
`userId`, the id field of the optional `req.user`: 404 when the row is absent, 403 when
`complaint.user_id !== userId`, else delete the row. -/
def deleteComplaintCore (userId : Option String) (store : List Complaint) (cid : String) :
    HandlerResult :=
  match findComplaint store cid with
  | none => ⟨404, store⟩
  | some c =>
    if some c.user_id ≠ userId then ⟨403, store⟩
    else ⟨200, store.filter (fun x => x.id ≠ cid)⟩

/-- `DELETE /complaints/:id` as registered in `part_001` line 422: the route
has no authentication middleware, so `req.user` is `undefined` and
`userId`, the id field of the optional `req.user` is always `undefined` (`none`), whether or not the
request carries a credential. -/
def deleteComplaintRoute (store : List Complaint) (cid : String) : HandlerResult :=
  deleteComplaintCore none store cid

/-- `DELETE /complaints/:id/image` (`part_001` line 206; gated by
`authenticateToken`): 404 when the row is absent, 403 when the requester is
not the stored owner, else delete the stored object and null the
`image_url` field (a no-op when no image is attached). -/
def deleteImageHandler (requesterId : String) (store : List Complaint) (cid : String) :
    HandlerResult :=
  match findComplaint store cid with
  | none => ⟨404, store⟩
  | some c =>
    if c.user_id ≠ requesterId then ⟨403, store⟩
    else
      match c.image_url with
      | some _ => ⟨200, store.map (fun x => if x.id = cid then { x with image_url := none } else x)⟩
      | none => ⟨200, store⟩

/-- The `tags` field of a `part_001` submission body, classified by what the
parse step of the handler sees: a native array, a string that JSON-parses to an
array (non-string elements behave as vocabulary misses and are dropped, so
elements are kept as strings), or a string that fails to parse as an array
(either `JSON.parse` throws, or `.filter` throws on the non-array result). -/
inductive TagsField where
  | arr (ts : List String)
  | strList (ts : List String)
  | strBad
deriving DecidableEq, Repr

/-- Tag parsing of `POST /submit` in `part_001` lines 143–156: start from
`[]`, take the array (native or JSON-parsed), filter to the vocabulary;
`none` is the caught-exception path that answers 400 Invalid tags format.
A `tags` value that is neither an array nor a string leaves `parsedTags`
as `[]` (the `Option.none` argument case). -/
def parseTagsV2 (tags : Option TagsField) : Option (List String) :=
  match tags with
  | none => some []
  | some (.arr ts) => some (ts.filter (fun t => decide (t ∈ VALID_TAGS)))
  | some (.strList ts) => some (ts.filter (fun t => decide (t ∈ VALID_TAGS)))
  | some .strBad => none

/-- Tag validation of `POST /submit` in `index.js` lines 100–103:
`tags and not tags.every(tag in VALID_TAGS)` rejects, i.e. a
present tags array passes only when every element is in the vocabulary. -/
def tagsValidV1 (tags : Option (List String)) : Bool :=
  match tags with
  | none => true
  | some ts => ts.all (fun t => decide (t ∈ VALID_TAGS))

/-- `POST /submit` of `index.js` lines 92–131 (gated by
`authenticateToken`): 400 when title or description is absent or empty,
400 when a supplied tags array has any out-of-vocabulary element, else
insert `user_id` = userId, `title`, `description`, `status` = pending, `tags` = the given list or `[]`.  Only `title`, `description` and `tags` are read from
the body; no client field can influence `user_id`. -/
def submitV1 (userId : String) (title description : Option String)
    (tags : Option (List String)) (store : List Complaint) (newId : String) (now : Nat) :
    HandlerResult :=
  if title.getD "" = "" ∨ description.getD "" = "" then ⟨400, store⟩
  else if tagsValidV1 tags then
    ⟨201, store ++ [{ id := newId, user_id := userId, title := title.getD "",
                      description := description.getD "", status := "pending",
                      tags := tags.getD [], image_url := none, upvotes := 0,
                      created_at := now }]⟩
  else ⟨400, store⟩

/-- `POST /submit` of `part_001` lines 132–203 (gated by
`authenticateToken`): 400 when title or description is absent or empty, 400 when the tags
field fails to parse, else insert the record with `user_id` = userId, `status` = pending,
`tags` = parsedTags and `image_url` = imageUrl, where
`imageUrl` is the output of the image pipeline (or `null` with no upload).  Only
`title`, `description` and `tags` are read from the body. -/
def submitV2 (userId : String) (title description : Option String) (tags : Option TagsField)
    (imageUrl : Option String) (store : List Complaint) (newId : String) (now : Nat) :
    HandlerResult :=
  if title.getD "" = "" ∨ description.getD "" = "" then ⟨400, store⟩
  else
    match parseTagsV2 tags with
    | none => ⟨400, store⟩
    | some parsedTags =>
      ⟨201, store ++ [{ id := newId, user_id := userId, title := title.getD "",
                        description := description.getD "", status := "pending",
                        tags := parsedTags, image_url := imageUrl, upvotes := 0,
                        created_at := now }]⟩

/-- `PUT /admin/complaints/:id/status` of `index.js` lines 200–212 (gated by
`authenticateAdmin`): updates the row with whatever `status` value the body
carries — no enum validation — and answers 200. -/
def updateStatusV1 (cid status : String) (store : List Complaint) : HandlerResult :=
  ⟨200, store.map (fun c => if c.id = cid then { c with status := status } else c)⟩

/-- `PUT /admin/complaints/:id/status` of `part_001` lines 348–367 (gated by
the `isAdmin` middleware): 400 unless `status` is one of
`pending, working, finished`, else update the row and answer 200. -/
def updateStatusV2 (cid status : String) (store : List Complaint) : HandlerResult :=
  if status ∈ ["pending", "working", "finished"] then
    ⟨200, store.map (fun c => if c.id = cid then { c with status := status } else c)⟩
  else ⟨400, store⟩

/-- Row order produced by `.order` on `created_at` with `ascending: false`:
newest first. -/
def newerFirst (a b : Complaint) : Prop := b.created_at ≤ a.created_at

instance : DecidableRel newerFirst := fun a b => Nat.decLe b.created_at a.created_at

instance : IsTotal Complaint newerFirst :=
  ⟨fun a b => Nat.le_total b.created_at a.created_at⟩

instance : IsTrans Complaint newerFirst :=
  ⟨fun _ _ _ hab hbc => Nat.le_trans hbc hab⟩

/-- `GET /complaints` of `index.js` lines 59–89 and `part_001` lines 101–129
(gated by `authenticateToken`): the rows owned by the requester, narrowed by the
`tag` query parameter only when it is in the vocabulary, ordered newest
first.  The ordered query of the store is modelled by a stable sort. -/
def listComplaintsV1 (userId : String) (tag : Option String) (store : List Complaint) :
    List Complaint :=
  let own := store.filter (fun c => decide (c.user_id = userId))
  let filtered :=
    match tag with
    | some t => if t ∈ VALID_TAGS then own.filter (fun c : Complaint => decide (t ∈ c.tags)) else own
    | none => own
  filtered.insertionSort newerFirst

/-- `GET /complaints` of `part_000` lines 62–81 (gated by
`authenticateToken`): only `.eq(user_id, userId)` — no `tag` filter and no
`.order` clause, so rows come back in whatever order the store holds them. -/
def listComplaintsV0 (userId : String) (store : List Complaint) : List Complaint :=
  store.filter (fun c => decide (c.user_id = userId))

/-- Pixel dimensions of an image, kept exact as rationals. -/
structure Dims where
  width : ℚ
  height : ℚ
deriving DecidableEq, Repr

/-- Modelled from the spec: the sharp resize call with arguments 1200, 1200, fit
inside, withoutEnlargement true of `processImage` (`part_001`
lines 496–512) delegates the resize arithmetic to the external `sharp`
library, whose code is not in the repository; spec §4.4 Normalize fixes its
behaviour as: resize to fit within a fixed bounding box of 1200×1200
preserving aspect ratio, never upscale.  An input already inside the box is
returned unchanged; otherwise both dimensions are scaled by the largest
factor keeping the result inside the box. -/
def resizeInside (box : ℚ) (d : Dims) : Dims :=
  if d.width ≤ box ∧ d.height ≤ box then d
  else
    let s := min (box / d.width) (box / d.height)
    ⟨d.width * s, d.height * s⟩

/-- `processImage` of `part_001` lines 496–512, viewed on dimensions: resize
into the 1200×1200 box (re-encoding to JPEG at quality 80 does not change
dimensions). -/
def processImage (d : Dims) : Dims := resizeInside 1200 d

/-- C3 counterexample: the claim fails as stated.  `generateToken` of
`index.js` (also `part_000`) signs only `{ email, id }`: for the admin
identity `u1`, verification of its fresh token succeeds but returns a
payload whose `isAdmin` field is absent (`none`), not equal to the
identity field `true`. -/
theorem token_roundtrip_counterexample :
    verifyToken (generateToken ⟨"u1", "a@b", true⟩ "s" 0) "s" 10 =
      some ⟨"u1", "a@b", none⟩ ∧
    (⟨"u1", "a@b", none⟩ : Payload).isAdmin ≠
      some (⟨"u1", "a@b", true⟩ : Identity).isAdmin := by
  decide

/-- C3 amended: for the `part_001` issuance site, verifying a fresh token
returns exactly the identity fields id, email and isAdmin, and verification
fails once 3600 seconds have elapsed; the `index.js`/`part_000` issuance
site round-trips id and email with the same expiry behaviour, but its
payload carries no `isAdmin` field at all. -/
theorem token_roundtrip_amended (u : Identity) (secret : String) (iat now : Nat) :
    (now < iat + 3600 →
      verifyToken (generateTokenV2 u secret iat) secret now =
        some ⟨u.id, u.email, some u.isAdmin⟩ ∧
      verifyToken (generateToken u secret iat) secret now =
        some ⟨u.id, u.email, none⟩) ∧
    (iat + 3600 ≤ now →
      verifyToken (generateTokenV2 u secret iat) secret now = none ∧
      verifyToken (generateToken u secret iat) secret now = none) := by
  constructor
  · intro h
    simp [verifyToken, generateToken, generateTokenV2, h]
  · intro h
    simp [verifyToken, generateToken, generateTokenV2, Nat.not_lt.2 h]

/-- C3 witness: the amended theorem evaluated at the admin identity `u1`,
secret `s`, issue time 0, checked fresh at time 10 and expired at 4000. -/
theorem token_roundtrip_amended_witness :
    verifyToken (generateTokenV2 ⟨"u1", "a@b", true⟩ "s" 0) "s" 10 =
      some ⟨"u1", "a@b", some true⟩ ∧
    verifyToken (generateTokenV2 ⟨"u1", "a@b", true⟩ "s" 0) "s" 4000 = none :=
  ⟨((token_roundtrip_amended ⟨"u1", "a@b", true⟩ "s" 0 10).1 (by decide)).1,
   ((token_roundtrip_amended ⟨"u1", "a@b", true⟩ "s" 0 4000).2 (by decide)).1⟩

/-- C4: for every presented token whose payload lacks the `isAdmin` field or
carries `isAdmin = false`, both admin gates — `authenticateAdmin` of the
three server revisions and the `isAdmin` middleware of `authMiddleware.js` —
answer 403 (whether or not the token also verifies), so the gated handler is
never invoked; this holds regardless of the other payload fields, of the
secret the token was signed with, and of the current time. -/
theorem admin_gates_reject_non_admin (p : Payload) (iat : Nat) (sec serverSec : String)
    (now : Nat) (hv : HeaderVal)
    (hstrip : stripBearer hv = Token.signed p iat sec)
    (hnot : p.isAdmin = none ∨ p.isAdmin = some false) :
    authenticateAdmin (some hv) serverSec now = .reject 403 ∧
    isAdminMw (some hv) serverSec now = .reject 403 := by
  have hpa : ¬ p.isAdmin = some true := by
    rcases hnot with h | h <;> simp [h]
  cases hv <;>
    (simp only [stripBearer] at hstrip
     subst hstrip
     by_cases hcond : sec = serverSec ∧ now < iat + 3600 <;>
       exact ⟨by simp [authenticateAdmin, verifyHeader, verifyToken, hcond, hpa],
              by simp [isAdminMw, stripBearer, verifyToken, hcond, hpa]⟩)

/-- C4 witness: a fresh, correctly signed token with `isAdmin: false` is
rejected with 403 by both admin gates. -/
theorem admin_gates_reject_non_admin_witness :
    authenticateAdmin (some (.tok (.signed ⟨"u", "e", some false⟩ 0 "s"))) "s" 1 =
      .reject 403 ∧
    isAdminMw (some (.tok (.signed ⟨"u", "e", some false⟩ 0 "s"))) "s" 1 = .reject 403 :=
  admin_gates_reject_non_admin ⟨"u", "e", some false⟩ 0 "s" "s" 1
    (.tok (.signed ⟨"u", "e", some false⟩ 0 "s")) rfl (Or.inr rfl)

/-- C9: for a valid admin token (signed with the server secret, unexpired,
`isAdmin: true`), the `isAdmin` middleware accepts the credential both bare
and with the `Bearer ` marker, while `authenticateToken` and
`authenticateAdmin` accept only the bare form and answer 403 on the
`Bearer `-marked form, whose composite string fails signature
verification. -/
theorem bearer_handling_diverges (p : Payload) (iat : Nat) (serverSec : String) (now : Nat)
    (hAdmin : p.isAdmin = some true) (hfresh : now < iat + 3600) :
    isAdminMw (some (.tok (.signed p iat serverSec))) serverSec now = .proceed p ∧
    isAdminMw (some (.bearer (.signed p iat serverSec))) serverSec now = .proceed p ∧
    authenticateToken (some (.tok (.signed p iat serverSec))) serverSec now = .proceed p ∧
    authenticateToken (some (.bearer (.signed p iat serverSec))) serverSec now =
      .reject 403 ∧
    authenticateAdmin (some (.tok (.signed p iat serverSec))) serverSec now = .proceed p ∧
    authenticateAdmin (some (.bearer (.signed p iat serverSec))) serverSec now =
      .reject 403 := by
  simp [isAdminMw, authenticateToken, authenticateAdmin, verifyHeader, verifyToken,
    stripBearer, hfresh, hAdmin]

/-- C9 witness: the divergence evaluated on a concrete fresh admin token. -/
theorem bearer_handling_diverges_witness :
    isAdminMw (some (.bearer (.signed ⟨"a", "e", some true⟩ 0 "s"))) "s" 1 =
      .proceed ⟨"a", "e", some true⟩ ∧
    authenticateToken (some (.bearer (.signed ⟨"a", "e", some true⟩ 0 "s"))) "s" 1 =
      .reject 403 ∧
    authenticateAdmin (some (.bearer (.signed ⟨"a", "e", some true⟩ 0 "s"))) "s" 1 =
      .reject 403 :=
  ⟨(bearer_handling_diverges ⟨"a", "e", some true⟩ 0 "s" 1 rfl (by decide)).2.1,
   (bearer_handling_diverges ⟨"a", "e", some true⟩ 0 "s" 1 rfl (by decide)).2.2.2.1,
   (bearer_handling_diverges ⟨"a", "e", some true⟩ 0 "s" 1 rfl (by decide)).2.2.2.2.2⟩

/-- C10: the `part_001` user-facing delete route carries no authentication
middleware, so the resolved requester id is always absent; for every store
and every id naming an existing complaint the ownership check fails, the
route answers 403 — also for requests with no credential at all, which
therefore get 403 rather than 401 — and the store is unchanged. -/
theorem unauthenticated_delete_route (store : List Complaint) (cid : String) (c : Complaint)
    (hc : findComplaint store cid = some c) :
    deleteComplaintRoute store cid = ⟨403, store⟩ := by
  simp [deleteComplaintRoute, deleteComplaintCore, hc]

/-- C10 witness: deleting an existing complaint through the unauthenticated
route answers 403 and leaves the store unchanged. -/
theorem unauthenticated_delete_route_witness :
    deleteComplaintRoute [⟨"c1", "alice", "t", "d", "pending", [], none, 0, 5⟩] "c1" =
      ⟨403, [⟨"c1", "alice", "t", "d", "pending", [], none, 0, 5⟩]⟩ :=
  unauthenticated_delete_route _ "c1" ⟨"c1", "alice", "t", "d", "pending", [], none, 0, 5⟩
    (by decide)

/-- C1 counterexample: the claim fails as stated.  The upvote handler is not
admin-gated, mutates the complaint record, and performs no ownership check:
requester `bob` upvotes the complaint owned by `alice`, the request succeeds
with 200 and the stored record changes. -/
theorem ownership_counterexample :
    (⟨"c1", "alice", "t", "d", "pending", [], none, 0, 5⟩ : Complaint).user_id ≠ "bob" ∧
    upvoteHandler ⟨"bob", "b@x", none⟩
        [⟨"c1", "alice", "t", "d", "pending", [], none, 0, 5⟩] "c1" =
      ⟨200, [⟨"c1", "alice", "t", "d", "pending", [], none, 1, 5⟩]⟩ := by
  decide

/-- C1 amended: the user-facing delete and image-removal handlers never
change a record owned by a different user — when the named complaint exists
and its stored owner differs from the requester both answer 403 with the
store unchanged — while the upvote handler succeeds for any authenticated
requester on any existing complaint, regardless of ownership. -/
theorem ownership_amended (uid : String) (store : List Complaint) (cid : String)
    (c : Complaint) (hc : findComplaint store cid = some c) (hown : c.user_id ≠ uid) :
    deleteComplaintCore (some uid) store cid = ⟨403, store⟩ ∧
    deleteImageHandler uid store cid = ⟨403, store⟩ ∧
    ∀ q : Payload, (upvoteHandler q store cid).status = 200 := by
  refine ⟨?_, ?_, fun q => ?_⟩ <;>
    simp [deleteComplaintCore, deleteImageHandler, upvoteHandler, hc, hown]

/-- C1 witness: the amended theorem evaluated with requester `bob` against
the store holding the single complaint owned by `alice`. -/
theorem ownership_amended_witness :
    deleteComplaintCore (some "bob")
        [⟨"c1", "alice", "t", "d", "pending", [], none, 0, 5⟩] "c1" =
      ⟨403, [⟨"c1", "alice", "t", "d", "pending", [], none, 0, 5⟩]⟩ ∧
    deleteImageHandler "bob"
        [⟨"c1", "alice", "t", "d", "pending", [], none, 0, 5⟩] "c1" =
      ⟨403, [⟨"c1", "alice", "t", "d", "pending", [], none, 0, 5⟩]⟩ :=
  ⟨(ownership_amended "bob" _ "c1" ⟨"c1", "alice", "t", "d", "pending", [], none, 0, 5⟩
      (by decide) (by decide)).1,
   (ownership_amended "bob" _ "c1" ⟨"c1", "alice", "t", "d", "pending", [], none, 0, 5⟩
      (by decide) (by decide)).2.1⟩

/-- C2 counterexample: the claim fails as stated on the `index.js` submit
handler, which rejects rather than filters: the spec scenario request —
title Broken light, description Hallway B, tags electricity and bogus —
answers 400 and stores nothing, instead of storing the record with the
filtered tag list. -/
theorem tag_filtering_counterexample :
    submitV1 "u7" (some "Broken light") (some "Hallway B")
      (some ["electricity", "bogus"]) [] "c1" 0 = ⟨400, []⟩ ∧
    ¬ (submitV1 "u7" (some "Broken light") (some "Hallway B")
        (some ["electricity", "bogus"]) [] "c1" 0).status = 201 := by
  decide

/-- C2 amended: in the `part_001` revision, submission tags outside the
fixed vocabulary are silently filtered out (both for a native array and for
a string parsing to an array), submission fails on the tags field only when
it cannot be parsed as a list; in the `index.js` revision, a tags array
containing any out-of-vocabulary value instead fails the request with 400
and no record is written. -/
theorem tag_filtering_amended (uid t d : String) (ht : t ≠ "") (hd : d ≠ "")
    (ts : List String) (imageUrl : Option String) (store : List Complaint)
    (newId : String) (now : Nat) :
    submitV2 uid (some t) (some d) (some (.arr ts)) imageUrl store newId now =
      ⟨201, store ++ [⟨newId, uid, t, d, "pending",
        ts.filter (fun x => decide (x ∈ VALID_TAGS)), imageUrl, 0, now⟩]⟩ ∧
    submitV2 uid (some t) (some d) (some (.strList ts)) imageUrl store newId now =
      ⟨201, store ++ [⟨newId, uid, t, d, "pending",
        ts.filter (fun x => decide (x ∈ VALID_TAGS)), imageUrl, 0, now⟩]⟩ ∧
    submitV2 uid (some t) (some d) (some .strBad) imageUrl store newId now =
      ⟨400, store⟩ ∧
    ((∃ x ∈ ts, x ∉ VALID_TAGS) →
      submitV1 uid (some t) (some d) (some ts) store newId now = ⟨400, store⟩) := by
  refine ⟨?_, ?_, ?_, ?_⟩
  · simp [submitV2, parseTagsV2, ht, hd]
  · simp [submitV2, parseTagsV2, ht, hd]
  · simp [submitV2, parseTagsV2, ht, hd]
  · rintro ⟨x, hx, hnx⟩
    have hall : tagsValidV1 (some ts) = false := by
      simp only [tagsValidV1, List.all_eq_true, decide_eq_true_eq]
      simp only [Bool.eq_false_iff, ne_eq, List.all_eq_true, decide_eq_true_eq, not_forall]
      exact ⟨x, hx, hnx⟩
    simp [submitV1, ht, hd, hall]

/-- C2 witness: the spec scenario against the `part_001` handler — the
bogus tag is dropped and the record is stored with the single valid tag. -/
theorem tag_filtering_amended_witness :
    submitV2 "u7" (some "Broken light") (some "Hallway B")
      (some (.arr ["electricity", "bogus"])) none [] "c1" 0 =
      ⟨201, [⟨"c1", "u7", "Broken light", "Hallway B", "pending",
        ["electricity"], none, 0, 0⟩]⟩ :=
  ((tag_filtering_amended "u7" "Broken light" "Hallway B" (by decide) (by decide)
      ["electricity", "bogus"] none [] "c1" 0).1).trans (by decide)

/-- C5 counterexample: the claim fails as stated on the `index.js` admin
status route, which performs no enum validation: setting status closed —
not in the enum — answers 200 and overwrites the stored status. -/
theorem status_enum_counterexample :
    "closed" ∉ ["pending", "working", "finished"] ∧
    updateStatusV1 "c1" "closed" [⟨"c1", "u", "t", "d", "pending", [], none, 0, 5⟩] =
      ⟨200, [⟨"c1", "u", "t", "d", "closed", [], none, 0, 5⟩]⟩ := by
  decide

/-- C5 amended: the `part_001` admin status route accepts only statuses in
the closed enum pending, working, finished, answering 400 with the store
unchanged for any other value; the `index.js` admin status route performs no
validation and answers 200 for any value. -/
theorem status_enum_amended (cid status : String) (store : List Complaint)
    (h : status ∉ ["pending", "working", "finished"]) :
    updateStatusV2 cid status store = ⟨400, store⟩ ∧
    (updateStatusV1 cid status store).status = 200 := by
  simp [updateStatusV2, updateStatusV1, h]

/-- C5 witness: the amended theorem evaluated at status closed on a
one-row store. -/
theorem status_enum_amended_witness :
    updateStatusV2 "c1" "closed" [⟨"c1", "u", "t", "d", "pending", [], none, 0, 5⟩] =
      ⟨400, [⟨"c1", "u", "t", "d", "pending", [], none, 0, 5⟩]⟩ :=
  (status_enum_amended "c1" "closed" _ (by decide)).1

/-- C6: in both submit handlers, a request missing title or description
(absent or empty) answers 400 with the store unchanged, and any record the
handler adds to the store carries `user_id` equal to the identity resolved
from the token and status pending — the handlers read only title,
description and tags from the body, so no client-supplied value can set the
owner. -/
theorem submit_owner_forced (uid : String) (title desc : Option String)
    (tags2 : Option TagsField) (imageUrl : Option String) (tags1 : Option (List String))
    (store : List Complaint) (newId : String) (now : Nat) :
    ((title.getD "" = "" ∨ desc.getD "" = "") →
      submitV2 uid title desc tags2 imageUrl store newId now = ⟨400, store⟩ ∧
      submitV1 uid title desc tags1 store newId now = ⟨400, store⟩) ∧
    (∀ c : Complaint, c ∈ (submitV2 uid title desc tags2 imageUrl store newId now).store →
      c ∈ store ∨ (c.user_id = uid ∧ c.status = "pending")) ∧
    (∀ c : Complaint, c ∈ (submitV1 uid title desc tags1 store newId now).store →
      c ∈ store ∨ (c.user_id = uid ∧ c.status = "pending")) := by
  refine ⟨fun h => ⟨by simp [submitV2, h], by simp [submitV1, h]⟩, ?_, ?_⟩
  · intro c hc
    unfold submitV2 at hc
    split at hc
    · exact Or.inl hc
    · split at hc
      · exact Or.inl hc
      · simp only [List.mem_append, List.mem_singleton] at hc
        rcases hc with hc | hc
        · exact Or.inl hc
        · subst hc
          exact Or.inr ⟨rfl, rfl⟩
  · intro c hc
    unfold submitV1 at hc
    split at hc
    · exact Or.inl hc
    · split at hc
      · simp only [List.mem_append, List.mem_singleton] at hc
        rcases hc with hc | hc
        · exact Or.inl hc
        · subst hc
          exact Or.inr ⟨rfl, rfl⟩
      · exact Or.inl hc

/-- C6 witness: a submission with no title answers 400 without writing, and
a well-formed submission stores a record owned by the requester with status
pending. -/
theorem submit_owner_forced_witness :
    submitV1 "u7" none (some "d") none [] "c1" 0 = ⟨400, []⟩ ∧
    ((⟨"c1", "u7", "t", "d", "pending", [], none, 0, 0⟩ : Complaint) ∈
        (submitV2 "u7" (some "t") (some "d") none none [] "c1" 0).store →
      (⟨"c1", "u7", "t", "d", "pending", [], none, 0, 0⟩ : Complaint) ∈
          ([] : List Complaint) ∨
        ((⟨"c1", "u7", "t", "d", "pending", [], none, 0, 0⟩ : Complaint).user_id = "u7" ∧
         (⟨"c1", "u7", "t", "d", "pending", [], none, 0, 0⟩ : Complaint).status =
           "pending")) :=
  ⟨((submit_owner_forced "u7" none (some "d") none none none [] "c1" 0).1
      (by decide)).2,
   (submit_owner_forced "u7" (some "t") (some "d") none none none [] "c1" 0).2.1
     ⟨"c1", "u7", "t", "d", "pending", [], none, 0, 0⟩⟩

/-- C7: for every image with positive dimensions, the normalized output fits
within the 1200×1200 bounding box, neither dimension is ever enlarged, the
aspect ratio is preserved exactly, and an input already inside the box is
returned unchanged. -/
theorem image_pipeline_bounded (d : Dims) (hw : 0 < d.width) (hh : 0 < d.height) :
    (processImage d).width ≤ 1200 ∧ (processImage d).height ≤ 1200 ∧
    (processImage d).width ≤ d.width ∧ (processImage d).height ≤ d.height ∧
    (processImage d).width * d.height = (processImage d).height * d.width ∧
    (d.width ≤ 1200 ∧ d.height ≤ 1200 → processImage d = d) := by
  by_cases hbox : d.width ≤ 1200 ∧ d.height ≤ 1200
  · have hp : processImage d = d := by simp [processImage, resizeInside, hbox]
    rw [hp]
    exact ⟨hbox.1, hbox.2, le_refl _, le_refl _, mul_comm _ _, fun _ => rfl⟩
  · have hp : processImage d =
        ⟨d.width * min (1200 / d.width) (1200 / d.height),
         d.height * min (1200 / d.width) (1200 / d.height)⟩ := by
      simp [processImage, resizeInside, hbox]
    set s := min (1200 / d.width) (1200 / d.height) with hs
    have hs1 : s ≤ 1 := by
      rcases not_and_or.mp hbox with h | h
      · exact le_trans (min_le_left _ _) (le_of_lt ((div_lt_one hw).mpr (lt_of_not_le h)))
      · exact le_trans (min_le_right _ _) (le_of_lt ((div_lt_one hh).mpr (lt_of_not_le h)))
    have hwle : d.width * s ≤ 1200 := by
      calc d.width * s ≤ d.width * (1200 / d.width) :=
            mul_le_mul_of_nonneg_left (min_le_left _ _) hw.le
        _ = 1200 := by field_simp
    have hhle : d.height * s ≤ 1200 := by
      calc d.height * s ≤ d.height * (1200 / d.height) :=
            mul_le_mul_of_nonneg_left (min_le_right _ _) hh.le
        _ = 1200 := by field_simp
    rw [hp]
    dsimp only
    refine ⟨hwle, hhle, ?_, ?_, by ring, fun hc => absurd hc hbox⟩
    · calc d.width * s ≤ d.width * 1 := mul_le_mul_of_nonneg_left hs1 hw.le
        _ = d.width := mul_one _
    · calc d.height * s ≤ d.height * 1 := mul_le_mul_of_nonneg_left hs1 hh.le
        _ = d.height := mul_one _

/-- C7 witness: the pipeline bound evaluated on a 2400×1800 input. -/
theorem image_pipeline_bounded_witness :
    (processImage ⟨2400, 1800⟩).width ≤ 1200 ∧
    (processImage ⟨2400, 1800⟩).height ≤ 1200 ∧
    (processImage ⟨2400, 1800⟩).width ≤ (⟨2400, 1800⟩ : Dims).width ∧
    (processImage ⟨2400, 1800⟩).height ≤ (⟨2400, 1800⟩ : Dims).height ∧
    (processImage ⟨2400, 1800⟩).width * (⟨2400, 1800⟩ : Dims).height =
      (processImage ⟨2400, 1800⟩).height * (⟨2400, 1800⟩ : Dims).width ∧
    ((⟨2400, 1800⟩ : Dims).width ≤ 1200 ∧ (⟨2400, 1800⟩ : Dims).height ≤ 1200 →
      processImage ⟨2400, 1800⟩ = ⟨2400, 1800⟩) :=
  image_pipeline_bounded ⟨2400, 1800⟩ (by norm_num) (by norm_num)

/-- C8 counterexample: the claim fails as stated on the `part_000` listing
handler, which has no order clause and no tag filter: for owner `u` whose
two rows sit in the store older-first, the handler returns them in store
order, which is not newest-first. -/
theorem self_listing_counterexample :
    listComplaintsV0 "u" [⟨"a", "u", "t", "d", "pending", [], none, 0, 1⟩,
                          ⟨"b", "u", "t", "d", "pending", [], none, 0, 2⟩] =
      [⟨"a", "u", "t", "d", "pending", [], none, 0, 1⟩,
       ⟨"b", "u", "t", "d", "pending", [], none, 0, 2⟩] ∧
    ¬ List.Pairwise newerFirst
      (listComplaintsV0 "u" [⟨"a", "u", "t", "d", "pending", [], none, 0, 1⟩,
                             ⟨"b", "u", "t", "d", "pending", [], none, 0, 2⟩]) := by
  constructor
  · decide
  · intro hp
    have := List.rel_of_pairwise_cons
      (by simpa [listComplaintsV0] using hp)
      (List.mem_singleton.mpr rfl)
    simp [newerFirst] at this

/-- C8 amended: the `index.js`/`part_001` self-listing returns only rows
owned by the requester, ordered newest-first, and a tag parameter outside
the vocabulary leaves the result identical to the unfiltered listing; the
`part_000` self-listing returns exactly the rows owned by the requester in
store order, with no ordering clause and no tag filter at all. -/
theorem self_listing_amended (uid : String) (tag : Option String) (store : List Complaint) :
    (∀ c ∈ listComplaintsV1 uid tag store, c.user_id = uid) ∧
    List.Sorted newerFirst (listComplaintsV1 uid tag store) ∧
    (∀ t, tag = some t → t ∉ VALID_TAGS →
      listComplaintsV1 uid tag store = listComplaintsV1 uid none store) ∧
    (∀ c, c ∈ listComplaintsV0 uid store ↔ c ∈ store ∧ c.user_id = uid) := by
  refine ⟨?_, ?_, ?_, ?_⟩
  · intro c hc
    rcases tag with _ | t
    · simp only [listComplaintsV1, List.mem_insertionSort] at hc
      simpa using (List.mem_filter.mp hc).2
    · simp only [listComplaintsV1, List.mem_insertionSort] at hc
      by_cases hvt : t ∈ VALID_TAGS
      · rw [if_pos hvt] at hc
        simpa using (List.mem_filter.mp (List.mem_of_mem_filter hc)).2
      · rw [if_neg hvt] at hc
        simpa using (List.mem_filter.mp hc).2
  · exact List.sorted_insertionSort newerFirst _
  · intro t ht hnt
    subst ht
    simp [listComplaintsV1, hnt]
  · intro c
    simp [listComplaintsV0, List.mem_filter]

/-- C8 witness: the amended theorem evaluated for owner `u` with an
out-of-vocabulary tag parameter on a two-row store. -/
theorem self_listing_amended_witness :
    listComplaintsV1 "u" (some "bogus")
      [⟨"a", "u", "t", "d", "pending", [], none, 0, 1⟩,
       ⟨"b", "u", "t", "d", "pending", [], none, 0, 2⟩] =
    listComplaintsV1 "u" none
      [⟨"a", "u", "t", "d", "pending", [], none, 0, 1⟩,
       ⟨"b", "u", "t", "d", "pending", [], none, 0, 2⟩] :=
  (self_listing_amended "u" (some "bogus") _).2.2.1 "bogus" rfl (by decide)
